import Mathlib

/-!
Shallow embedding of `src-ui/src/app/utils/popper-options.ts`
(`popperOptionsWithAutoOffset`) and proofs of the behavioural claims
about it.

Modelling choices, taken from the source rather than the spec:
* A JavaScript number observed by this code is an `Option ℚ`: `none`
  models `NaN`, and also `undefined` (the two behave identically in the
  arithmetic and `<` comparisons this code performs: arithmetic yields
  `NaN`, comparisons yield `false`).
* `Partial<Options>` is a record whose `modifiers` field may be absent
  (`none` models an `undefined` field) and whose remaining fields are an
  opaque `rest` component, never touched by the code.
* The arrow function pushed as `options.offset` captures the local
  constant `windowWidth` by value, but captures `dropdownElement` (an
  element reference) and reads its `offsetLeft` property at each
  invocation.  The invocation-time environment `LayoutEnv` therefore
  carries the current value of that property; the call-time viewport
  width is a parameter of the closure constructor.
* `config.modifiers.push(...)` on an absent `modifiers` field throws a
  `TypeError` in JavaScript; the embedding returns `Except.error` there.
  In-place mutation is modelled by explicit state passing: the returned
  configuration is the updated object, and "same object reference" is
  rendered as the output agreeing with the input except for the append.
-/

/-- A JavaScript numeric value as this utility observes it: `none` models
`NaN` and `undefined`. -/
abbrev JSNum : Type := Option ℚ

/-- JavaScript `+` on such values: `NaN` propagates. -/
def jsAdd : JSNum → JSNum → JSNum
  | some a, some b => some (a + b)
  | _, _ => none

/-- JavaScript `-` on such values: `NaN` propagates. -/
def jsSub : JSNum → JSNum → JSNum
  | some a, some b => some (a - b)
  | _, _ => none

/-- JavaScript `<` on such values: any comparison involving `NaN` or
`undefined` is `false`. -/
def jsLt : JSNum → JSNum → Bool
  | some a, some b => decide (a < b)
  | _, _ => false

/-- The slice of the popper rectangle the callback reads: only `width`. -/
structure PopperRect : Type where
  width : JSNum

/-- The layout state handed to the offset callback by the positioning
library during a layout pass.  `ρ` is the opaque type of the `reference`
field, which the code never inspects. -/
structure LayoutState (ρ : Type) : Type where
  popper : PopperRect
  reference : ρ
  placement : String

/-- The mutable DOM facts visible to the offset callback when the layout
pass invokes it: the closure in the source captures the dropdown element
by reference and reads its `offsetLeft` property inside its body, so the
value of that property at invocation time is part of the invocation
environment rather than of the closure. -/
structure LayoutEnv : Type where
  offsetLeft : JSNum

/-- The `options` record of a modifier entry. -/
structure ModifierOptions (ρ : Type) : Type where
  offset : LayoutEnv → LayoutState ρ → JSNum × JSNum

/-- One entry of the `modifiers` array of a popper configuration. -/
structure ModifierEntry (ρ : Type) : Type where
  name : String
  options : ModifierOptions ρ

/-- `Partial<Options>`: the `modifiers` field may be absent (`none`
models an `undefined` field); `rest` stands for every other field of the
configuration, which the code never reads or writes. -/
structure Config (ρ σ : Type) : Type where
  modifiers : Option (List (ModifierEntry ρ))
  rest : σ

/-- The JavaScript error raised by `config.modifiers.push` when the
`modifiers` field is absent. -/
inductive JsError : Type
  | typeErrorPushOfUndefined

/-- The arrow function the source pushes as `options.offset`:
`windowWidth - 10 - (dropdownElement.offsetLeft + popper.width)` is the
right overflow; the result is `[rightOverflow < 0 ? rightOverflow : 0, 0]`.
The element offset comes from the invocation-time environment because
the source dereferences the captured element at each call. -/
def offsetCallback {ρ : Type} (windowWidth : JSNum) (env : LayoutEnv)
    (s : LayoutState ρ) : JSNum × JSNum :=
  let rightOverflow :=
    jsSub (jsSub windowWidth (some 10)) (jsAdd env.offsetLeft s.popper.width)
  (if jsLt rightOverflow (some 0) then rightOverflow else some 0, some 0)

/-- The modifier entry the source pushes: name `"offset"`, options
holding the callback closed over the call-time viewport width. -/
def offsetModifierEntry {ρ : Type} (windowWidth : JSNum) : ModifierEntry ρ :=
  { name := "offset"
    options := { offset := offsetCallback windowWidth } }

/-- `popperOptionsWithAutoOffset`: reads the viewport width, and when it
is below 400 pushes the offset modifier onto `config.modifiers`,
returning the configuration; otherwise returns it untouched.  A push on
an absent `modifiers` field throws. -/
def popperOptionsWithAutoOffset {ρ σ : Type} (windowWidth : JSNum)
    (config : Config ρ σ) : Except JsError (Config ρ σ) :=
  if jsLt windowWidth (some 400) then
    match config.modifiers with
    | some mods =>
        Except.ok
          { config with modifiers := some (mods ++ [offsetModifierEntry windowWidth]) }
    | none => Except.error JsError.typeErrorPushOfUndefined
  else
    Except.ok config

/-- The shared mutable state an invocation of the callback could touch:
the captured element and the configuration object. -/
structure SharedState (ρ σ : Type) : Type where
  element : LayoutEnv
  config : Config ρ σ

/-- One invocation of the offset callback by the layout pass, threaded
through the shared state it can see.  The body of the closure in the
source only reads (`windowWidth`, `dropdownElement.offsetLeft`,
`popper.width`) and performs no assignment, so the state passes through
unchanged. -/
def invokeOffset {ρ σ : Type} (windowWidth : JSNum) (w : SharedState ρ σ)
    (s : LayoutState ρ) : (JSNum × JSNum) × SharedState ρ σ :=
  (offsetCallback windowWidth w.element s, w)

/-- A sample configuration with an empty modifiers array, as in the
tests. -/
def sampleConfig : Config Unit Unit :=
  { modifiers := some ([] : List (ModifierEntry Unit))
    rest := () }

/-- A sample configuration whose `modifiers` field is absent. -/
def bareConfig : Config Unit Unit :=
  { modifiers := none
    rest := () }

/-- A sample layout state with the given popper width and placement
`"bottom"`, as in the tests. -/
def sampleState (P : ℚ) : LayoutState Unit :=
  { popper := { width := some P }
    reference := ()
    placement := "bottom" }

/-- The configuration produced from `sampleConfig` at viewport width
300. -/
def resultSample300 : Config Unit Unit :=
  { modifiers := some [offsetModifierEntry (some 300)]
    rest := () }

/-- Reduction of the guard on two genuine numbers. -/
theorem jsLt_some_some (a b : ℚ) : jsLt (some a) (some b) = decide (a < b) := rfl

/-- The guard is false whenever the threshold is met. -/
theorem jsLt_false_of_le {a b : ℚ} (h : b ≤ a) : jsLt (some a) (some b) = false := by
  simp [jsLt, not_lt.mpr h]

/-- The guard is true below the threshold. -/
theorem jsLt_true_of_lt {a b : ℚ} (h : a < b) : jsLt (some a) (some b) = true := by
  simp [jsLt, h]

/-- C1: for every trigger element left offset `L`, viewport width
`W < 400` and popper width `P`, the calculator appends its modifier and
invoking the stored callback on a layout state whose popper width is `P`
(with the element offset standing at `L`) yields exactly
`[min 0 ((W - 10) - (L + P)), 0]`. -/
theorem C1_offset_formula {ρ σ : Type} (L W P : ℚ) (hW : W < 400)
    (cfg : Config ρ σ) (mods : List (ModifierEntry ρ))
    (h : cfg.modifiers = some mods)
    (s : LayoutState ρ) (hs : s.popper.width = some P) :
    popperOptionsWithAutoOffset (some W) cfg =
      Except.ok { cfg with modifiers := some (mods ++ [offsetModifierEntry (some W)]) } ∧
    (offsetModifierEntry (ρ := ρ) (some W)).options.offset { offsetLeft := some L } s =
      (some (min 0 ((W - 10) - (L + P))), some 0) := by
  constructor
  · simp [popperOptionsWithAutoOffset, jsLt_true_of_lt hW, h]
  · simp only [offsetModifierEntry, offsetCallback, jsSub, jsAdd, hs]
    rcases lt_or_le ((W - 10) - (L + P)) 0 with hneg | hpos
    · simp [jsLt, hneg, min_eq_right hneg.le]
    · simp [jsLt, not_lt.mpr hpos, min_eq_left hpos]

/-- C1 witness: scenario B of the tests, viewport 300, offset 100,
popper width 250, giving `[-60, 0]`. -/
theorem C1_offset_formula_witness :
    popperOptionsWithAutoOffset (some 300) sampleConfig =
      Except.ok { sampleConfig with
        modifiers := some ([] ++ [offsetModifierEntry (some 300)]) } ∧
    (offsetModifierEntry (ρ := Unit) (some 300)).options.offset
        { offsetLeft := some 100 } (sampleState 250) =
      (some (min 0 ((300 - 10) - (100 + 250))), some 0) :=
  C1_offset_formula 100 300 250 (by norm_num) sampleConfig [] rfl (sampleState 250) rfl

/-- C2: at viewport width `400` or more the calculator is the identity
passthrough on any configuration (same object returned, nothing
appended, modifiers length kept), and the threshold is strictly
less-than: width `399` appends the modifier while width `400` does
not. -/
theorem C2_strict_threshold {ρ σ : Type} (cfg cfg2 : Config ρ σ) (W : ℚ)
    (hW : 400 ≤ W) (mods : List (ModifierEntry ρ))
    (h : cfg.modifiers = some mods) :
    popperOptionsWithAutoOffset (some W) cfg2 = Except.ok cfg2 ∧
    popperOptionsWithAutoOffset (some 400) cfg2 = Except.ok cfg2 ∧
    popperOptionsWithAutoOffset (some 399) cfg =
      Except.ok { cfg with modifiers := some (mods ++ [offsetModifierEntry (some 399)]) } := by
  refine ⟨?_, ?_, ?_⟩
  · simp [popperOptionsWithAutoOffset, jsLt_false_of_le hW]
  · simp [popperOptionsWithAutoOffset, jsLt_false_of_le (le_refl (400 : ℚ))]
  · simp [popperOptionsWithAutoOffset, jsLt_true_of_lt (by norm_num : (399:ℚ) < 400), h]

/-- C2 witness: at width 400 both sample configurations pass through,
and at width 399 the modifier is appended. -/
theorem C2_strict_threshold_witness :
    popperOptionsWithAutoOffset (some 400) bareConfig = Except.ok bareConfig ∧
    popperOptionsWithAutoOffset (some 400) bareConfig = Except.ok bareConfig ∧
    popperOptionsWithAutoOffset (some 399) sampleConfig =
      Except.ok { sampleConfig with
        modifiers := some ([] ++ [offsetModifierEntry (some 399)]) } :=
  C2_strict_threshold sampleConfig bareConfig 400 (le_refl 400) [] rfl

/-- C3: below the threshold the calculator appends exactly one modifier
entry, that entry is named `"offset"`, and the modifiers length grows by
exactly one. -/
theorem C3_appends_one_offset_entry {ρ σ : Type} (cfg : Config ρ σ)
    (mods : List (ModifierEntry ρ)) (h : cfg.modifiers = some mods)
    (W : ℚ) (hW : W < 400) :
    popperOptionsWithAutoOffset (some W) cfg =
      Except.ok { cfg with modifiers := some (mods ++ [offsetModifierEntry (some W)]) } ∧
    (offsetModifierEntry (ρ := ρ) (some W)).name = "offset" ∧
    (mods ++ [offsetModifierEntry (ρ := ρ) (some W)]).length = mods.length + 1 := by
  refine ⟨?_, rfl, ?_⟩
  · simp [popperOptionsWithAutoOffset, jsLt_true_of_lt hW, h]
  · simp

/-- C3 witness: viewport 300 on the sample configuration. -/
theorem C3_appends_one_offset_entry_witness :
    popperOptionsWithAutoOffset (some 300) sampleConfig =
      Except.ok { sampleConfig with
        modifiers := some ([] ++ [offsetModifierEntry (some 300)]) } ∧
    (offsetModifierEntry (ρ := Unit) (some 300)).name = "offset" ∧
    ([] ++ [offsetModifierEntry (ρ := Unit) (some 300)]).length =
      List.length ([] : List (ModifierEntry Unit)) + 1 :=
  C3_appends_one_offset_entry sampleConfig [] rfl 300 (by norm_num)

/-- C4 counterexample: the callback appended by the calculator at
viewport width 300 is invoked twice with the identical layout state
(popper width 250), once while the trigger element left offset stands at
100 and once while it stands at 200, and the two outputs differ
(`[-60, 0]` versus `[-160, 0]`): the left offset is read through the
captured element reference at layout time, not fixed at call time.  The
second conjunct ties the callback to what the calculator appends. -/
theorem C4_capture_counterexample :
    (offsetModifierEntry (ρ := Unit) (some 300)).options.offset
        { offsetLeft := some 100 } (sampleState 250) ≠
      (offsetModifierEntry (ρ := Unit) (some 300)).options.offset
        { offsetLeft := some 200 } (sampleState 250) ∧
    popperOptionsWithAutoOffset (some 300) sampleConfig =
      Except.ok resultSample300 := by
  constructor
  · have h1 : (offsetModifierEntry (ρ := Unit) (some 300)).options.offset
        { offsetLeft := some 100 } (sampleState 250) =
        ((some (-60) : JSNum), (some 0 : JSNum)) := by
      simp only [offsetModifierEntry, offsetCallback, sampleState, jsSub, jsAdd, jsLt]
      norm_num
    have h2 : (offsetModifierEntry (ρ := Unit) (some 300)).options.offset
        { offsetLeft := some 200 } (sampleState 250) =
        ((some (-160) : JSNum), (some 0 : JSNum)) := by
      simp only [offsetModifierEntry, offsetCallback, sampleState, jsSub, jsAdd, jsLt]
      norm_num
    rw [h1, h2]
    simp only [ne_eq, Prod.mk.injEq, Option.some.injEq]
    intro hcontra
    exact absurd hcontra.1 (by norm_num)
  · rfl

/-- C4 amended: the appended modifier is fully determined by the
viewport width read at calculator-call time (it is the fixed entry
`offsetModifierEntry (some W)`, never re-reading the viewport), while
the trigger element is captured by reference and its left offset is read
afresh at each layout-time invocation: the output of the callback on a
layout pass is computed from the left offset standing at that pass. -/
theorem C4_capture_amended {ρ σ : Type} (cfg : Config ρ σ)
    (mods : List (ModifierEntry ρ)) (h : cfg.modifiers = some mods)
    (W : ℚ) (hW : W < 400) :
    popperOptionsWithAutoOffset (some W) cfg =
      Except.ok { cfg with modifiers := some (mods ++ [offsetModifierEntry (some W)]) } ∧
    ∀ (L P : ℚ) (s : LayoutState ρ), s.popper.width = some P →
      (offsetModifierEntry (ρ := ρ) (some W)).options.offset { offsetLeft := some L } s =
        (if (W - 10) - (L + P) < 0 then some ((W - 10) - (L + P)) else some 0, some 0) := by
  constructor
  · simp [popperOptionsWithAutoOffset, jsLt_true_of_lt hW, h]
  · intro L P s hs
    simp only [offsetModifierEntry, offsetCallback, jsSub, jsAdd, hs]
    rcases lt_or_le ((W - 10) - (L + P)) 0 with hneg | hpos
    · simp [jsLt, hneg]
    · simp [jsLt, not_lt.mpr hpos, hpos]

/-- C4 amended witness: viewport 300 on the sample configuration, then
the callback at element offsets drawn at layout time. -/
theorem C4_capture_amended_witness :
    popperOptionsWithAutoOffset (some 300) sampleConfig =
      Except.ok { sampleConfig with
        modifiers := some ([] ++ [offsetModifierEntry (some 300)]) } ∧
    ∀ (L P : ℚ) (s : LayoutState Unit), s.popper.width = some P →
      (offsetModifierEntry (ρ := Unit) (some 300)).options.offset
          { offsetLeft := some L } s =
        (if ((300:ℚ) - 10) - (L + P) < 0 then some (((300:ℚ) - 10) - (L + P)) else some 0,
          some 0) :=
  C4_capture_amended sampleConfig [] rfl 300 (by norm_num)

/-- C5: whenever a call to the calculator returns, every configuration
field other than `modifiers` is untouched, a configuration without a
modifiers sequence comes back identical, and a modifiers sequence
present before the call is a prefix of the one after it with at most one
entry appended: no pre-existing entry is mutated. -/
theorem C5_append_only_frame {ρ σ : Type} (cfg c : Config ρ σ) (W : JSNum)
    (h : popperOptionsWithAutoOffset W cfg = Except.ok c) :
    c.rest = cfg.rest ∧
    (cfg.modifiers = none → c = cfg) ∧
    ∀ mods ms, cfg.modifiers = some mods → c.modifiers = some ms →
      ms.take mods.length = mods ∧ ms.length ≤ mods.length + 1 := by
  unfold popperOptionsWithAutoOffset at h
  by_cases hb : jsLt W (some 400) = true
  · rw [if_pos hb] at h
    cases hcm : cfg.modifiers with
    | none =>
      rw [hcm] at h
      exact absurd h (by simp)
    | some mods0 =>
      rw [hcm] at h
      injection h with h
      subst h
      refine ⟨rfl, ?_, ?_⟩
      · intro hn
        exact absurd hn (by simp)
      · intro mods ms hm hms
        injection hm with hm
        subst hm
        simp only [Option.some.injEq] at hms
        subst hms
        constructor
        · exact List.take_left mods0 [offsetModifierEntry W]
        · simp
  · rw [if_neg hb] at h
    injection h with h
    subst h
    refine ⟨rfl, fun _ => rfl, ?_⟩
    intro mods ms hm hms
    rw [hm] at hms
    injection hms with hms
    subst hms
    exact ⟨List.take_length mods, Nat.le_succ _⟩

/-- C5 witness: the call at viewport width 300 on the sample
configuration. -/
theorem C5_append_only_frame_witness :
    resultSample300.rest = sampleConfig.rest ∧
    (sampleConfig.modifiers = none → resultSample300 = sampleConfig) ∧
    ∀ mods ms, sampleConfig.modifiers = some mods →
      resultSample300.modifiers = some ms →
      ms.take mods.length = mods ∧ ms.length ≤ mods.length + 1 :=
  C5_append_only_frame sampleConfig resultSample300 (some 300) rfl

/-- A layout state over a non-trivial reference type, for exercising
independence from `reference` and `placement`. -/
def stateRef (b : Bool) (place : String) : LayoutState Bool :=
  { popper := { width := some 250 }
    reference := b
    placement := place }

/-- C6: the callback output depends on the layout state only through the
popper rectangle — two states agreeing on `popper` but differing in
`placement` and `reference` produce equal outputs — and the y-component
of the output is always `0`. -/
theorem C6_ignores_placement_reference {ρ : Type} (W : JSNum) (env : LayoutEnv)
    (s t : LayoutState ρ) (h : s.popper = t.popper) :
    (offsetModifierEntry (ρ := ρ) W).options.offset env s =
      (offsetModifierEntry (ρ := ρ) W).options.offset env t ∧
    ((offsetModifierEntry (ρ := ρ) W).options.offset env s).2 = some 0 := by
  constructor
  · simp [offsetModifierEntry, offsetCallback, h]
  · simp [offsetModifierEntry, offsetCallback]

/-- C6 witness: two states sharing a popper of width 250 but with
different reference values and placements. -/
theorem C6_ignores_placement_reference_witness :
    (offsetModifierEntry (ρ := Bool) (some 300)).options.offset
        { offsetLeft := some 100 } (stateRef true "bottom") =
      (offsetModifierEntry (ρ := Bool) (some 300)).options.offset
        { offsetLeft := some 100 } (stateRef false "top") ∧
    ((offsetModifierEntry (ρ := Bool) (some 300)).options.offset
        { offsetLeft := some 100 } (stateRef true "bottom")).2 = some 0 :=
  C6_ignores_placement_reference (some 300) { offsetLeft := some 100 }
    (stateRef true "bottom") (stateRef false "top") rfl

/-- C7: invoking the callback leaves the shared state (element and
configuration) untouched, re-invoking it from the resulting state with
the same layout state yields the identical output, and two invocations
commute — running them in either order produces the same pair of outputs
and the same final state. -/
theorem C7_pure_idempotent {ρ σ : Type} (W : JSNum) (w : SharedState ρ σ)
    (s t : LayoutState ρ) :
    (invokeOffset W w s).2 = w ∧
    (invokeOffset W ((invokeOffset W w s).2) s).1 = (invokeOffset W w s).1 ∧
    ((invokeOffset W w s).1, (invokeOffset W ((invokeOffset W w s).2) t).1,
        (invokeOffset W ((invokeOffset W w s).2) t).2) =
      ((invokeOffset W ((invokeOffset W w t).2) s).1, (invokeOffset W w t).1,
        (invokeOffset W ((invokeOffset W w t).2) s).2) :=
  ⟨rfl, rfl, rfl⟩

/-- C8: with a modifiers sequence present, the calculator always returns
a configuration and never an error, for every viewport width including
`NaN` or `undefined`; and the callback always runs to completion and
returns a pair, for every element offset and layout state, including
non-numeric ones. -/
theorem C8_no_exception {ρ σ : Type} (W L : JSNum) (cfg : Config ρ σ)
    (mods : List (ModifierEntry ρ)) (h : cfg.modifiers = some mods)
    (s : LayoutState ρ) :
    (∃ c, popperOptionsWithAutoOffset W cfg = Except.ok c) ∧
    (∀ e, popperOptionsWithAutoOffset W cfg ≠ Except.error e) ∧
    (∃ p, (offsetModifierEntry (ρ := ρ) W).options.offset { offsetLeft := L } s = p) := by
  have hok : ∃ c, popperOptionsWithAutoOffset W cfg = Except.ok c := by
    unfold popperOptionsWithAutoOffset
    by_cases hb : jsLt W (some 400) = true
    · rw [if_pos hb, h]
      exact ⟨_, rfl⟩
    · rw [if_neg hb]
      exact ⟨cfg, rfl⟩
  refine ⟨hok, ?_, ⟨_, rfl⟩⟩
  intro e hcontra
  rcases hok with ⟨c, hc⟩
  rw [hc] at hcontra
  exact absurd hcontra (by simp)

/-- C8 witness: a `NaN` viewport width and element offset on the sample
configuration and a state with `NaN` popper width. -/
theorem C8_no_exception_witness :
    (∃ c, popperOptionsWithAutoOffset none sampleConfig = Except.ok c) ∧
    (∀ e, popperOptionsWithAutoOffset none sampleConfig ≠ Except.error e) ∧
    (∃ p, (offsetModifierEntry (ρ := Unit) none).options.offset
        { offsetLeft := none } (sampleState 0) = p) :=
  C8_no_exception none none sampleConfig [] rfl (sampleState 0)

/-- C9: when the viewport width reads as `undefined` or `NaN`, the
comparison with 400 is false, so the calculator takes the passthrough
branch: no modifier is appended and the configuration comes back
unchanged, with no failure. -/
theorem C9_nan_width_passthrough {ρ σ : Type} (cfg : Config ρ σ) :
    jsLt none (some 400) = false ∧
    popperOptionsWithAutoOffset none cfg = Except.ok cfg :=
  ⟨rfl, rfl⟩

/-- C10: at or above the threshold the calculator succeeds and returns
the configuration unchanged even when the `modifiers` field is absent —
that branch never touches `modifiers` — whereas below the threshold an
absent `modifiers` field makes the call throw. -/
theorem C10_modifiers_untouched_above_threshold {ρ σ : Type}
    (cfg : Config ρ σ) (hnone : cfg.modifiers = none)
    (W W2 : ℚ) (hW : 400 ≤ W) (hW2 : W2 < 400) :
    popperOptionsWithAutoOffset (some W) cfg = Except.ok cfg ∧
    popperOptionsWithAutoOffset (some W2) cfg =
      Except.error JsError.typeErrorPushOfUndefined := by
  constructor
  · simp [popperOptionsWithAutoOffset, jsLt_false_of_le hW]
  · simp [popperOptionsWithAutoOffset, jsLt_true_of_lt hW2, hnone]

/-- C10 witness: the configuration without a modifiers field at widths
400 and 399. -/
theorem C10_modifiers_untouched_above_threshold_witness :
    popperOptionsWithAutoOffset (some 400) bareConfig = Except.ok bareConfig ∧
    popperOptionsWithAutoOffset (some 399) bareConfig =
      Except.error JsError.typeErrorPushOfUndefined :=
  C10_modifiers_untouched_above_threshold bareConfig rfl 400 399
    (le_refl 400) (by norm_num)
